import Mathlib

/-!
Shallow embedding of the blast-wave field synthesis and playback engine
(`RealTimeSimulationViewer`, `generateFrameData`, `runAnimation`,
`handleFrameSeek`, `renderBlastWave`, `calculateBlastRadius`).

JavaScript numbers are modelled as real numbers; the JavaScript
falsy-coalescing operator `a || b` on numbers is modelled by `jsOr`
(zero is falsy, everything else truthy).  Array indexing
`frames[frameIndex]` with an out-of-range index yields `undefined`,
which the source replaces by a default object; `lookupFrame` models
the combined `frames[frameIndex] || default` expression.
-/

/-- One externally supplied sample, as in the `frames` prop:
`{ time, pressure, velocity, temperature }`. -/
structure InputFrame where
  time : ℝ
  pressure : ℝ
  velocity : ℝ
  temperature : ℝ

/-- The default object used when `frames[frameIndex]` is `undefined`:
`{ time: frameIndex * 0.1, pressure: 0, velocity: 0, temperature: 300 }`. -/
noncomputable def defaultFrame (frameIndex : ℤ) : InputFrame :=
  ⟨(frameIndex : ℝ) * 0.1, 0, 0, 300⟩

/-- JavaScript `a || b` on numbers: `b` when `a` is `0` (falsy), else `a`. -/
noncomputable def jsOr (a b : ℝ) : ℝ :=
  if a = 0 then b else a

/-- `frames[frameIndex] || { time: frameIndex * 0.1, pressure: 0, velocity: 0,
temperature: 300 }` — an in-range element is an object, hence truthy. -/
noncomputable def lookupFrame (frames : List InputFrame) (frameIndex : ℤ) : InputFrame :=
  if h : 0 ≤ frameIndex ∧ frameIndex < (frames.length : ℤ) then
    frames.get ⟨frameIndex.toNat, by omega⟩
  else defaultFrame frameIndex

/-- The analytic peak-pressure fallback of `generateFrameData`:
`15.0 * Math.exp(-t * 0.8) * Math.max(0, 1 - t * 0.3)`. -/
noncomputable def analyticPressure (t : ℝ) : ℝ :=
  15.0 * Real.exp (-t * 0.8) * max 0 (1 - t * 0.3)

/-- The analytic peak-velocity fallback of `generateFrameData`:
`350.0 * Math.exp(-t * 0.5) * Math.max(0, Math.sin(t * 1.5))`. -/
noncomputable def analyticVelocity (t : ℝ) : ℝ :=
  350.0 * Real.exp (-t * 0.5) * max 0 (Real.sin (t * 1.5))

/-- `const t = frame.time || frameIndex * 0.1`. -/
noncomputable def frameTime (frames : List InputFrame) (frameIndex : ℤ) : ℝ :=
  jsOr (lookupFrame frames frameIndex).time ((frameIndex : ℝ) * 0.1)

/-- `const maxPressure = frame.pressure * 15 || 15.0 * Math.exp(-t * 0.8) *
Math.max(0, 1 - t * 0.3)`. -/
noncomputable def framePeakPressure (frames : List InputFrame) (frameIndex : ℤ) : ℝ :=
  jsOr ((lookupFrame frames frameIndex).pressure * 15)
    (analyticPressure (frameTime frames frameIndex))

/-- `const maxVelocity = frame.velocity * 350 || 350.0 * Math.exp(-t * 0.5) *
Math.max(0, Math.sin(t * 1.5))`. -/
noncomputable def framePeakVelocity (frames : List InputFrame) (frameIndex : ℤ) : ℝ :=
  jsOr ((lookupFrame frames frameIndex).velocity * 350)
    (analyticVelocity (frameTime frames frameIndex))

/-- `const waveRadius = t * 8` — wave propagation speed 8 grid-units/s. -/
noncomputable def waveRadius (t : ℝ) : ℝ := t * 8

/-- `const distance = Math.sqrt((i - centerX) ** 2 + (j - centerY) ** 2)` —
Euclidean distance of cell `(i, j)` from the grid center `(c, c)`. -/
noncomputable def gridDistance (c : ℝ) (i j : ℕ) : ℝ :=
  Real.sqrt (((i : ℝ) - c) ^ 2 + ((j : ℝ) - c) ^ 2)

/-- `const tStarLocal = timeAtDistance / 2` with
`timeAtDistance = (distance / waveRadius) * t` — the normalized
time-at-distance of the Friedlander approximation. -/
noncomputable def tStarLocal (t d : ℝ) : ℝ :=
  d / waveRadius t * t / 2

/-- One cell of the 50×50 pressure field: grid center `(25, 25)`; inside the
front (`distance <= waveRadius && waveRadius > 0`) the Friedlander-style
value `maxPressure * exp(-tStarLocal) * (1 - tStarLocal)`, guarded by
`tStarLocal > 0`; the pushed value is `Math.max(0, pressure)`. -/
noncomputable def pressureCell (maxPressure t : ℝ) (i j : ℕ) : ℝ :=
  max 0
    (if gridDistance 25 i j ≤ waveRadius t ∧ waveRadius t > 0 then
      (if tStarLocal t (gridDistance 25 i j) > 0 then
        maxPressure * Real.exp (-tStarLocal t (gridDistance 25 i j)) *
          (1 - tStarLocal t (gridDistance 25 i j))
      else 0)
    else 0)

/-- One row (`j = 0 .. 49`) of the pressure field. -/
noncomputable def pressureFieldRow (maxPressure t : ℝ) (i : ℕ) : List ℝ :=
  (List.range 50).map (fun j => pressureCell maxPressure t i j)

/-- The full 50×50 pressure field (`i = 0 .. 49`). -/
noncomputable def pressureField (maxPressure t : ℝ) : List (List ℝ) :=
  (List.range 50).map (fun i => pressureFieldRow maxPressure t i)

/-- A velocity vector `{ x, y }`. -/
structure Vec2 where
  x : ℝ
  y : ℝ

/-- The magnitude inside `velocityCell`:
`Math.abs(distance - waveRadius) < 3 ? maxVelocity * (1 - Math.abs(distance -
waveRadius) / 3) : 0`. -/
noncomputable def velMagnitude (maxVelocity t d : ℝ) : ℝ :=
  if |d - waveRadius t| < 3 then maxVelocity * (1 - |d - waveRadius t| / 3) else 0

/-- One cell of the 25×25 velocity field: center `(12.5, 12.5)`,
`dx = i - 12.5`, `dy = j - 12.5`; if `distance > 0` the radially outward
vector `(magnitude * dx / distance, magnitude * dy / distance)`, else the
zero vector. -/
noncomputable def velocityCell (maxVelocity t : ℝ) (i j : ℕ) : Vec2 :=
  if gridDistance 12.5 i j > 0 then
    ⟨velMagnitude maxVelocity t (gridDistance 12.5 i j) * ((i : ℝ) - 12.5) /
        gridDistance 12.5 i j,
      velMagnitude maxVelocity t (gridDistance 12.5 i j) * ((j : ℝ) - 12.5) /
        gridDistance 12.5 i j⟩
  else ⟨0, 0⟩

/-- One row (`j = 0 .. 24`) of the velocity field. -/
noncomputable def velocityFieldRow (maxVelocity t : ℝ) (i : ℕ) : List Vec2 :=
  (List.range 25).map (fun j => velocityCell maxVelocity t i j)

/-- The full 25×25 velocity field (`i = 0 .. 24`). -/
noncomputable def velocityField (maxVelocity t : ℝ) : List (List Vec2) :=
  (List.range 25).map (fun i => velocityFieldRow maxVelocity t i)

/-- The returned `SimulationFrame` record. -/
structure SimulationFrame where
  frame : ℤ
  time : ℝ
  pressureField : List (List ℝ)
  velocityField : List (List Vec2)
  maxPressure : ℝ
  maxVelocity : ℝ

/-- `generateFrameData(frameIndex)`: the mock frame generator of
`RealTimeSimulationViewer`. -/
noncomputable def generateFrameData (frames : List InputFrame) (frameIndex : ℤ) :
    SimulationFrame :=
  { frame := frameIndex
    time := frameTime frames frameIndex
    pressureField := pressureField (framePeakPressure frames frameIndex)
      (frameTime frames frameIndex)
    velocityField := velocityField (framePeakVelocity frames frameIndex)
      (frameTime frames frameIndex)
    maxPressure := framePeakPressure frames frameIndex
    maxVelocity := framePeakVelocity frames frameIndex }

/-- The component-local playback state: `isPlaying`, `currentFrame`,
`totalFrames` (initialised to `Math.max(frames.length, 250)`). -/
structure PlaybackState where
  isPlaying : Bool
  currentFrame : ℤ
  totalFrames : ℤ

/-- `handleFrameSeek(frame)`: `setCurrentFrame(frame)` — the handler stores
the argument as-is; it contains no clamping. -/
def handleFrameSeek (s : PlaybackState) (frame : ℤ) : PlaybackState :=
  { s with currentFrame := frame }

/-- `handleStop()`: `setIsPlaying(false); setCurrentFrame(0)`. -/
def handleStop (s : PlaybackState) : PlaybackState :=
  { s with isPlaying := false, currentFrame := 0 }

/-- The frame advancement of one `runAnimation` step:
`if (!isPlaying) return; const nextFrame = (currentFrame + 1) % totalFrames`.
JavaScript `%` is the truncating remainder (`Int.tmod`). -/
def runAnimation (s : PlaybackState) : PlaybackState :=
  if s.isPlaying then { s with currentFrame := (s.currentFrame + 1).tmod s.totalFrames }
  else s

/-- The skip-back button: `handleFrameSeek(Math.max(0, currentFrame - 10))`. -/
def seekBack (s : PlaybackState) : PlaybackState :=
  handleFrameSeek s (max 0 (s.currentFrame - 10))

/-- The skip-forward button:
`handleFrameSeek(Math.min(totalFrames - 1, currentFrame + 10))`. -/
def seekForward (s : PlaybackState) : PlaybackState :=
  handleFrameSeek s (min (s.totalFrames - 1) (s.currentFrame + 10))

/-- The TNT-equivalence step of `calculateBlastRadius`:
`type === "TNT" ? mass : mass * 1.34`. -/
noncomputable def tntEquivalentOf (ty : String) (mass : ℝ) : ℝ :=
  if ty = "TNT" then mass else mass * 1.34

/-- `calculateBlastRadius(mass, type)`:
`Math.pow(tntEquivalent / 1000, 1 / 3) * 100` (cube-root scaling). -/
noncomputable def calculateBlastRadius (mass : ℝ) (ty : String) : ℝ :=
  (tntEquivalentOf ty mass / 1000) ^ ((1 : ℝ) / 3) * 100

/-- The TNT-equivalence step inside `renderBlastWave`:
`const tntEquivalent = explosive.explosiveMass || 1000`. -/
noncomputable def renderBlastWaveTntEquivalent (explosiveMass : ℝ) : ℝ :=
  jsOr explosiveMass 1000

/-- The scaled distance inside `renderBlastWave`:
`Math.pow(tntEquivalent / 1000, 1 / 3)`. -/
noncomputable def renderBlastWaveScaledDistance (explosiveMass : ℝ) : ℝ :=
  (renderBlastWaveTntEquivalent explosiveMass / 1000) ^ ((1 : ℝ) / 3)

/-! ### Helper lemmas -/

theorem jsOr_zero_left (b : ℝ) : jsOr 0 b = b := by
  simp [jsOr]

theorem jsOr_of_ne {a : ℝ} (b : ℝ) (h : a ≠ 0) : jsOr a b = a := by
  simp [jsOr, h]

theorem jsOr_nonneg {a b : ℝ} (ha : 0 ≤ a) (hb : 0 ≤ b) : 0 ≤ jsOr a b := by
  unfold jsOr
  split <;> assumption

theorem lookupFrame_nil (i : ℤ) : lookupFrame [] i = defaultFrame i := by
  unfold lookupFrame
  rw [dif_neg]
  simp only [List.length_nil, Nat.cast_zero]
  omega

theorem lookupFrame_mem_or_default (frames : List InputFrame) (i : ℤ) :
    lookupFrame frames i ∈ frames ∨ lookupFrame frames i = defaultFrame i := by
  unfold lookupFrame
  split
  · exact Or.inl (frames.get_mem _ _)
  · exact Or.inr rfl

theorem lookupFrame_singleton_zero (f : InputFrame) : lookupFrame [f] 0 = f := by
  unfold lookupFrame
  rw [dif_pos (by simp)]
  rfl

/-! ### Claims about playback (seek, tick) -/

/-- Claim C2: the spec asserts that seeking clamps to `[0, total_frames)`,
with `seek(-5)` yielding frame 0 and `seek(9999)` yielding frame 249 on a
250-frame sequence.  Counterexample: `handleFrameSeek` stores its argument
unchanged, so `seek(-5)` yields current frame `-5` (not `0`, and outside
`[0, 250)`) and `seek(9999)` yields `9999` (not `249`). -/
theorem c2_counterexample :
    (handleFrameSeek ⟨false, 0, 250⟩ (-5)).currentFrame = -5 ∧
    ¬ (0 ≤ (handleFrameSeek ⟨false, 0, 250⟩ (-5)).currentFrame) ∧
    (handleFrameSeek ⟨false, 0, 250⟩ 9999).currentFrame = 9999 ∧
    ¬ ((handleFrameSeek ⟨false, 0, 250⟩ 9999).currentFrame < 250) := by
  exact ⟨rfl, by decide, rfl, by decide⟩

/-- Claim C2 (amended): `handleFrameSeek` performs no clamping — it stores
exactly the argument it is given; the clamping happens in its UI callers:
the skip-back button passes `max(0, currentFrame - 10)` and the
skip-forward button passes `min(totalFrames - 1, currentFrame + 10)`, so
the frames reached through those controls always lie in `[0, totalFrames)`. -/
theorem c2_seek_stores_argument (s : PlaybackState) (f : ℤ)
    (h0 : 0 ≤ s.currentFrame) (h1 : s.currentFrame < s.totalFrames) :
    (handleFrameSeek s f).currentFrame = f ∧
    0 ≤ (seekBack s).currentFrame ∧ (seekBack s).currentFrame < s.totalFrames ∧
    0 ≤ (seekForward s).currentFrame ∧ (seekForward s).currentFrame < s.totalFrames := by
  refine ⟨rfl, ?_, ?_, ?_, ?_⟩ <;>
    simp only [seekBack, seekForward, handleFrameSeek] <;> omega

/-- Witness for C2 (amended) at the concrete state
`{isPlaying := false, currentFrame := 0, totalFrames := 250}` and seek
argument 7. -/
theorem c2_seek_stores_argument_witness :
    (0 : ℤ) ≤ 0 ∧ (0 : ℤ) < 250 ∧
    ((handleFrameSeek ⟨false, 0, 250⟩ 7).currentFrame = 7 ∧
      0 ≤ (seekBack ⟨false, 0, 250⟩).currentFrame ∧
      (seekBack ⟨false, 0, 250⟩).currentFrame < 250 ∧
      0 ≤ (seekForward ⟨false, 0, 250⟩).currentFrame ∧
      (seekForward ⟨false, 0, 250⟩).currentFrame < 250) :=
  ⟨by decide, by decide, c2_seek_stores_argument ⟨false, 0, 250⟩ 7 (by decide) (by decide)⟩

/-- Claim C8: a tick while playing advances the current frame to
`(currentFrame + 1) mod totalFrames`; from any frame in `[0, totalFrames)`
the result is again in `[0, totalFrames)`. -/
theorem c8_tick_wraps (s : PlaybackState) (hp : s.isPlaying = true)
    (h0 : 0 ≤ s.currentFrame) (h1 : s.currentFrame < s.totalFrames) :
    (runAnimation s).currentFrame = (s.currentFrame + 1) % s.totalFrames ∧
    0 ≤ (runAnimation s).currentFrame ∧
    (runAnimation s).currentFrame < s.totalFrames := by
  have hmod : (s.currentFrame + 1).tmod s.totalFrames = (s.currentFrame + 1) % s.totalFrames :=
    Int.tmod_eq_emod (by omega) (by omega)
  have hT : (0 : ℤ) < s.totalFrames := by omega
  simp only [runAnimation, hp, if_true]
  exact ⟨hmod, by rw [hmod]; exact Int.emod_nonneg _ (by omega),
    by rw [hmod]; exact Int.emod_lt_of_pos _ hT⟩

/-- Witness for C8: one tick while Playing at frame 249 of a 250-frame
sequence yields frame 0. -/
theorem c8_tick_wraps_witness :
    (runAnimation ⟨true, 249, 250⟩).currentFrame = 0 := by
  have h := c8_tick_wraps ⟨true, 249, 250⟩ rfl (by decide) (by decide)
  exact h.1.trans (by decide)

/-! ### Claims about the scaling law (`calculateBlastRadius`, `renderBlastWave`) -/

/-- Claim C3: the spec asserts every explosive type other than C4 (including
PETN, RDX, ANFO) maps to `1.0 * mass`.  Counterexample: the code tests
`type === "TNT"`, so PETN gets the 1.34 factor: `tntEquivalentOf "PETN" 1000
= 1340 ≠ 1000`. -/
theorem c3_counterexample :
    tntEquivalentOf "PETN" 1000 = 1340 ∧ (1340 : ℝ) ≠ 1000 := by
  constructor
  · rw [tntEquivalentOf, if_neg (by decide)]
    norm_num
  · norm_num

/-- Claim C3 (amended): TNT maps to `1.0 * mass` and every other type — C4,
PETN, RDX and ANFO alike — to `1.34 * mass`; the scaled distance of an
equivalent mass of 1000 kg is exactly 1, and
`calculateBlastRadius 1000 "TNT" = 100` (radius `100 * (eq/1000)^(1/3)`). -/
theorem c3_scaling_law (m : ℝ) :
    tntEquivalentOf "TNT" m = m ∧
    tntEquivalentOf "C4" m = m * 1.34 ∧
    tntEquivalentOf "PETN" m = m * 1.34 ∧
    tntEquivalentOf "RDX" m = m * 1.34 ∧
    tntEquivalentOf "ANFO" m = m * 1.34 ∧
    (tntEquivalentOf "TNT" 1000 / 1000 : ℝ) ^ ((1 : ℝ) / 3) = 1 ∧
    calculateBlastRadius 1000 "TNT" = 100 := by
  have hTNT : ∀ x : ℝ, tntEquivalentOf "TNT" x = x := fun x => by
    rw [tntEquivalentOf, if_pos rfl]
  have hone : (tntEquivalentOf "TNT" 1000 / 1000 : ℝ) ^ ((1 : ℝ) / 3) = 1 := by
    rw [hTNT]
    norm_num
  refine ⟨hTNT m, ?_, ?_, ?_, ?_, hone, ?_⟩
  · rw [tntEquivalentOf, if_neg (by decide)]
  · rw [tntEquivalentOf, if_neg (by decide)]
  · rw [tntEquivalentOf, if_neg (by decide)]
  · rw [tntEquivalentOf, if_neg (by decide)]
  · rw [calculateBlastRadius, hone]
    norm_num

/-- Claim C9: the spec asserts a non-positive mass is never silently coerced
to a default inside the numerical core.  Counterexample: `renderBlastWave`
computes `explosive.explosiveMass || 1000`, so mass 0 is silently replaced
by the default equivalent mass 1000. -/
theorem c9_counterexample :
    renderBlastWaveTntEquivalent 0 = 1000 ∧ (0 : ℝ) ≠ 1000 := by
  constructor
  · rw [renderBlastWaveTntEquivalent, jsOr_zero_left]
  · norm_num

/-- Claim C9 (amended): every nonzero mass (negative masses included)
reaches `renderBlastWave`'s scaling computation unchanged, and
`calculateBlastRadius`'s TNT-equivalence uses the supplied mass injectively
(it never collapses a mass to a default); but a mass of exactly 0 in
`renderBlastWave` is silently coerced to the default 1000. -/
theorem c9_mass_passthrough (ty : String) (m : ℝ) (hm : m ≠ 0) :
    renderBlastWaveTntEquivalent m = m ∧
    ∀ m' : ℝ, tntEquivalentOf ty m = tntEquivalentOf ty m' → m = m' := by
  refine ⟨jsOr_of_ne _ hm, ?_⟩
  intro m' h
  unfold tntEquivalentOf at h
  split at h
  · exact h
  · exact mul_right_cancel₀ (by norm_num) h

/-- Witness for C9 (amended) at mass 5 and type TNT. -/
theorem c9_mass_passthrough_witness :
    (5 : ℝ) ≠ 0 ∧
    (renderBlastWaveTntEquivalent 5 = 5 ∧
      ∀ m' : ℝ, tntEquivalentOf "TNT" 5 = tntEquivalentOf "TNT" m' → 5 = m') :=
  ⟨by norm_num, c9_mass_passthrough "TNT" 5 (by norm_num)⟩

/-! ### Claim about hybrid-mode override precedence -/

/-- Claim C1: external scalar overrides are supposed to take precedence over
the analytic fallback for every sample value, including exactly 0.  The code
evaluates `frame.pressure * 15 || analytic`, so a pressure sample of exactly
0 is falsy and the analytic fallback is used instead: with a supplied frame
`{time: 1, pressure: 0, velocity: 1}` the resulting `maxPressure` is the
analytic `15 * exp(-0.8) * 0.7 ≈ 4.71`, not `0 * 15 = 0`; a nonzero sample
`pressure = 0.5` does take precedence (`maxPressure = 0.5 * 15 = 7.5`). -/
theorem c1_zero_sample_falls_back :
    (generateFrameData [⟨1, 0, 1, 300⟩] 0).maxPressure = 15 * Real.exp (-0.8) * 0.7 ∧
    15 * Real.exp (-0.8) * 0.7 ≠ (0 : ℝ) ∧
    (generateFrameData [⟨1, 0.5, 1, 300⟩] 0).maxPressure = 0.5 * 15 := by
  refine ⟨?_, ?_, ?_⟩
  · show framePeakPressure [⟨1, 0, 1, 300⟩] 0 = _
    rw [framePeakPressure, lookupFrame_singleton_zero]
    show jsOr ((0 : ℝ) * 15) _ = _
    rw [zero_mul, jsOr_zero_left, frameTime, lookupFrame_singleton_zero]
    show analyticPressure (jsOr 1 _) = _
    rw [jsOr_of_ne _ (by norm_num), analyticPressure]
    rw [show (-(1 : ℝ) * 0.8) = -0.8 by norm_num,
      show (1 : ℝ) - 1 * 0.3 = 0.7 by norm_num, max_eq_right (by norm_num)]
    norm_num
  · have h : (0 : ℝ) < 15 * Real.exp (-0.8) * 0.7 := by positivity
    exact h.ne'
  · show framePeakPressure [⟨1, 0.5, 1, 300⟩] 0 = _
    rw [framePeakPressure, lookupFrame_singleton_zero]
    show jsOr ((0.5 : ℝ) * 15) _ = _
    rw [jsOr_of_ne _ (by norm_num)]

/-! ### Helper lemmas for the waveform and field synthesizer -/

theorem waveRadius_zero : waveRadius 0 = 0 := by
  rw [waveRadius, zero_mul]

theorem analyticPressure_nonneg (t : ℝ) : 0 ≤ analyticPressure t := by
  unfold analyticPressure
  exact mul_nonneg (mul_nonneg (by norm_num) (Real.exp_pos _).le) (le_max_left 0 _)

theorem analyticVelocity_nonneg (t : ℝ) : 0 ≤ analyticVelocity t := by
  unfold analyticVelocity
  exact mul_nonneg (mul_nonneg (by norm_num) (Real.exp_pos _).le) (le_max_left 0 _)

theorem analyticPressure_pos_of_neg {t : ℝ} (ht : t < 0) : 0 < analyticPressure t := by
  unfold analyticPressure
  have h2 : (0 : ℝ) < 1 - t * 0.3 := by nlinarith
  rw [max_eq_right h2.le]
  exact mul_pos (mul_pos (by norm_num) (Real.exp_pos _)) h2

theorem analyticPressure_zero : analyticPressure 0 = 15 := by
  unfold analyticPressure
  rw [show (-(0 : ℝ) * 0.8) = 0 by ring, Real.exp_zero,
    show (1 : ℝ) - 0 * 0.3 = 1 by ring, max_eq_right (by norm_num : (0 : ℝ) ≤ 1)]
  norm_num

theorem analyticPressure_one : analyticPressure 1 = 15 * Real.exp (-0.8) * 0.7 := by
  unfold analyticPressure
  rw [show (-(1 : ℝ) * 0.8) = -0.8 by norm_num,
    show (1 : ℝ) - 1 * 0.3 = 0.7 by norm_num, max_eq_right (by norm_num : (0 : ℝ) ≤ 0.7)]
  norm_num

theorem analyticVelocity_zero : analyticVelocity 0 = 0 := by
  unfold analyticVelocity
  rw [show ((0 : ℝ) * 1.5) = 0 by ring, Real.sin_zero, max_self, mul_zero]

theorem frameTime_nil_zero : frameTime [] 0 = 0 := by
  rw [frameTime, lookupFrame_nil]
  show jsOr (((0 : ℤ) : ℝ) * 0.1) (((0 : ℤ) : ℝ) * 0.1) = 0
  norm_num [jsOr]

theorem frameTime_nil_ten : frameTime [] 10 = 1 := by
  rw [frameTime, lookupFrame_nil]
  show jsOr (((10 : ℤ) : ℝ) * 0.1) (((10 : ℤ) : ℝ) * 0.1) = 1
  rw [jsOr_of_ne _ (by norm_num)]
  norm_num

theorem framePeakPressure_nil_zero : framePeakPressure [] 0 = 15 := by
  rw [framePeakPressure, lookupFrame_nil]
  show jsOr ((0 : ℝ) * 15) (analyticPressure (frameTime [] 0)) = 15
  rw [zero_mul, jsOr_zero_left, frameTime_nil_zero, analyticPressure_zero]

theorem framePeakVelocity_nil_zero : framePeakVelocity [] 0 = 0 := by
  rw [framePeakVelocity, lookupFrame_nil]
  show jsOr ((0 : ℝ) * 350) (analyticVelocity (frameTime [] 0)) = 0
  rw [zero_mul, jsOr_zero_left, frameTime_nil_zero, analyticVelocity_zero]

theorem framePeakPressure_nil_ten :
    framePeakPressure [] 10 = 15 * Real.exp (-0.8) * 0.7 := by
  rw [framePeakPressure, lookupFrame_nil]
  show jsOr ((0 : ℝ) * 15) (analyticPressure (frameTime [] 10)) = _
  rw [zero_mul, jsOr_zero_left, frameTime_nil_ten, analyticPressure_one]

theorem pressureCell_nonneg (maxP t : ℝ) (i j : ℕ) : 0 ≤ pressureCell maxP t i j := by
  unfold pressureCell
  exact le_max_left 0 _

theorem pressureCell_zero_time (maxP : ℝ) (i j : ℕ) : pressureCell maxP 0 i j = 0 := by
  have hc : ¬(gridDistance 25 i j ≤ waveRadius 0 ∧ waveRadius 0 > 0) := by
    rw [waveRadius_zero]
    rintro ⟨-, h⟩
    exact lt_irrefl 0 h
  unfold pressureCell
  rw [if_neg hc, max_self]

theorem pressureCell_zero_of_far (maxP t : ℝ) (i j : ℕ)
    (h : waveRadius t < gridDistance 25 i j) : pressureCell maxP t i j = 0 := by
  have hc : ¬(gridDistance 25 i j ≤ waveRadius t ∧ waveRadius t > 0) := by
    rintro ⟨hle, -⟩
    exact absurd hle (not_le.mpr h)
  unfold pressureCell
  rw [if_neg hc, max_self]

theorem velocityCell_zero_maxV (t : ℝ) (i j : ℕ) : velocityCell 0 t i j = ⟨0, 0⟩ := by
  have hm : velMagnitude 0 t (gridDistance 12.5 i j) = 0 := by
    unfold velMagnitude
    split
    · rw [zero_mul]
    · rfl
  unfold velocityCell
  split
  · rw [hm, zero_mul, zero_mul, zero_div]
  · rfl

/-! ### Claims about the synthesized fields -/

/-- Claim C4: at frame index 0 with no supplied frame data, `time = 0`, the
50×50 pressure field is all zero, the 25×25 velocity field is all zero
vectors, and `maxPressure` equals the analytic `peak_pressure_bar(0) = 15`. -/
theorem c4_zero_time_frame :
    (generateFrameData [] 0).time = 0 ∧
    (generateFrameData [] 0).maxPressure = analyticPressure 0 ∧
    analyticPressure 0 = 15 ∧
    (generateFrameData [] 0).pressureField.length = 50 ∧
    (∀ row ∈ (generateFrameData [] 0).pressureField, row.length = 50 ∧ ∀ p ∈ row, p = 0) ∧
    (generateFrameData [] 0).velocityField.length = 25 ∧
    (∀ row ∈ (generateFrameData [] 0).velocityField, row.length = 25 ∧
      ∀ v ∈ row, v = (⟨0, 0⟩ : Vec2)) := by
  refine ⟨frameTime_nil_zero, ?_, analyticPressure_zero, ?_, ?_, ?_, ?_⟩
  · show framePeakPressure [] 0 = _
    rw [framePeakPressure_nil_zero, analyticPressure_zero]
  · show (pressureField (framePeakPressure [] 0) (frameTime [] 0)).length = 50
    rw [pressureField, List.length_map, List.length_range]
  · intro row hrow
    have hrow2 : row ∈ pressureField (framePeakPressure [] 0) (frameTime [] 0) := hrow
    rw [pressureField, List.mem_map] at hrow2
    obtain ⟨a, -, rfl⟩ := hrow2
    constructor
    · rw [pressureFieldRow, List.length_map, List.length_range]
    · intro p hp
      rw [pressureFieldRow, List.mem_map] at hp
      obtain ⟨b, -, rfl⟩ := hp
      rw [frameTime_nil_zero]
      exact pressureCell_zero_time _ a b
  · show (velocityField (framePeakVelocity [] 0) (frameTime [] 0)).length = 25
    rw [velocityField, List.length_map, List.length_range]
  · intro row hrow
    have hrow2 : row ∈ velocityField (framePeakVelocity [] 0) (frameTime [] 0) := hrow
    rw [velocityField, List.mem_map] at hrow2
    obtain ⟨a, -, rfl⟩ := hrow2
    constructor
    · rw [velocityFieldRow, List.length_map, List.length_range]
    · intro v hv
      rw [velocityFieldRow, List.mem_map] at hv
      obtain ⟨b, -, rfl⟩ := hv
      rw [framePeakVelocity_nil_zero]
      exact velocityCell_zero_maxV _ a b

/-- Witness for C4: the concrete cell `(0, 0)` of the frame-0 pressure field
is zero. -/
theorem c4_zero_time_frame_witness :
    pressureCell (framePeakPressure [] 0) (frameTime [] 0) 0 0 = 0 := by
  have hrow : pressureFieldRow (framePeakPressure [] 0) (frameTime [] 0) 0 ∈
      (generateFrameData [] 0).pressureField :=
    List.mem_map_of_mem _ (List.mem_range.mpr (by norm_num))
  have hp : pressureCell (framePeakPressure [] 0) (frameTime [] 0) 0 0 ∈
      pressureFieldRow (framePeakPressure [] 0) (frameTime [] 0) 0 :=
    List.mem_map_of_mem _ (List.mem_range.mpr (by norm_num))
  exact (c4_zero_time_frame.2.2.2.2.1 _ hrow).2 _ hp

/-- Claim C5: the frame at `time_s = 1.0` (index 10, no external data) has
`maxPressure = 15 * exp(-0.8) * 0.7`, wave radius 8 grid-units, every cell
at distance above 8 from the center holds pressure exactly 0, and every
nonzero pressure value of the field sits within 8 units of the center. -/
theorem c5_end_to_end (i j : ℕ) (hfar : 8 < gridDistance 25 i j) :
    (generateFrameData [] 10).time = 1 ∧
    (generateFrameData [] 10).maxPressure = 15 * Real.exp (-0.8) * 0.7 ∧
    waveRadius (generateFrameData [] 10).time = 8 ∧
    pressureCell (generateFrameData [] 10).maxPressure
      (generateFrameData [] 10).time i j = 0 ∧
    ∀ row ∈ (generateFrameData [] 10).pressureField, ∀ p ∈ row, p ≠ 0 →
      ∃ a b : ℕ, a < 50 ∧ b < 50 ∧
        p = pressureCell (generateFrameData [] 10).maxPressure
          (generateFrameData [] 10).time a b ∧
        gridDistance 25 a b ≤ 8 := by
  have ht : (generateFrameData [] 10).time = 1 := frameTime_nil_ten
  have hmp : (generateFrameData [] 10).maxPressure = 15 * Real.exp (-0.8) * 0.7 :=
    framePeakPressure_nil_ten
  refine ⟨ht, hmp, ?_, ?_, ?_⟩
  · rw [ht, waveRadius, one_mul]
  · apply pressureCell_zero_of_far
    rw [ht, waveRadius, one_mul]
    exact hfar
  · intro row hrow p hp hpne
    have hrow2 : row ∈ pressureField (framePeakPressure [] 10) (frameTime [] 10) := hrow
    rw [pressureField, List.mem_map] at hrow2
    obtain ⟨a, ha, rfl⟩ := hrow2
    rw [pressureFieldRow, List.mem_map] at hp
    obtain ⟨b, hb, rfl⟩ := hp
    refine ⟨a, b, List.mem_range.mp ha, List.mem_range.mp hb, rfl, ?_⟩
    by_contra hgt
    push_neg at hgt
    refine hpne (pressureCell_zero_of_far _ _ a b ?_)
    rw [frameTime_nil_ten, waveRadius, one_mul]
    exact hgt

/-- Witness for C5 at the concrete cell `(0, 0)`, which lies at distance
`sqrt(1250) > 8` from the center. -/
theorem c5_end_to_end_witness :
    8 < gridDistance 25 0 0 ∧
    (generateFrameData [] 10).time = 1 ∧
    (generateFrameData [] 10).maxPressure = 15 * Real.exp (-0.8) * 0.7 ∧
    waveRadius (generateFrameData [] 10).time = 8 ∧
    pressureCell (generateFrameData [] 10).maxPressure
      (generateFrameData [] 10).time 0 0 = 0 := by
  have hfar : 8 < gridDistance 25 0 0 := by
    unfold gridDistance
    rw [show (((0 : ℕ) : ℝ) - 25) ^ 2 + (((0 : ℕ) : ℝ) - 25) ^ 2 = 1250 by norm_num]
    exact (Real.lt_sqrt (by norm_num)).mpr (by norm_num)
  have h := c5_end_to_end 0 0 hfar
  exact ⟨hfar, h.1, h.2.1, h.2.2.1, h.2.2.2.1⟩

/-- Claim C6: the spec asserts both waveform functions return 0 for every
`t < 0`.  Counterexample: the code has no backward-time guard, so at
`t = -1` the analytic pressure is `15 * exp(0.8) * 1.3 > 0`, not 0. -/
theorem c6_counterexample :
    (-1 : ℝ) < 0 ∧ analyticPressure (-1) ≠ 0 :=
  ⟨by norm_num, (analyticPressure_pos_of_neg (by norm_num)).ne'⟩

theorem analyticVelocity_neg_three_pos : 0 < analyticVelocity (-3) := by
  have hs : 0 < Real.sin ((-3 : ℝ) * 1.5) := by
    rw [show ((-3 : ℝ) * 1.5) = -(4.5 : ℝ) by norm_num, Real.sin_neg]
    have hlt : Real.pi < 4.5 := lt_trans Real.pi_lt_d2 (by norm_num)
    have hgt := Real.pi_gt_three
    have hsub : 0 < Real.sin (4.5 - Real.pi) :=
      Real.sin_pos_of_pos_of_lt_pi (by linarith) (by linarith)
    have h45 : Real.sin (4.5 : ℝ) = -Real.sin (4.5 - Real.pi) := by
      have h := Real.sin_antiperiodic (4.5 - Real.pi)
      rw [sub_add_cancel] at h
      exact h
    rw [h45]
    linarith
  unfold analyticVelocity
  rw [max_eq_right hs.le]
  exact mul_pos (mul_pos (by norm_num) (Real.exp_pos _)) hs

/-- Claim C6 (amended): the waveform functions apply no backward-time guard:
for every `t < 0` the analytic peak pressure is strictly positive (the decay
formula is extrapolated backward), the analytic peak velocity is 0 exactly
when its `max(0, sin(1.5 t))` factor vanishes, i.e. if and only if
`sin(1.5 t) ≤ 0`, and there is a negative time (`t = -3`, where
`sin(-4.5) > 0`) at which the velocity is strictly positive — so neither
function returns 0 for all `t < 0`. -/
theorem c6_no_backward_guard (t : ℝ) (ht : t < 0) :
    0 < analyticPressure t ∧
    (analyticVelocity t = 0 ↔ Real.sin (t * 1.5) ≤ 0) ∧
    ∃ u : ℝ, u < 0 ∧ 0 < analyticVelocity u := by
  refine ⟨analyticPressure_pos_of_neg ht, ⟨?_, ?_⟩,
    ⟨-3, by norm_num, analyticVelocity_neg_three_pos⟩⟩
  · intro h0
    by_contra hpos
    push_neg at hpos
    have hv : 0 < analyticVelocity t := by
      unfold analyticVelocity
      rw [max_eq_right hpos.le]
      exact mul_pos (mul_pos (by norm_num) (Real.exp_pos _)) hpos
    exact hv.ne' h0
  · intro hs
    unfold analyticVelocity
    rw [max_eq_left hs, mul_zero]

/-- Witness for C6 (amended) at `t = -1`. -/
theorem c6_no_backward_guard_witness :
    (-1 : ℝ) < 0 ∧ 0 < analyticPressure (-1) :=
  ⟨by norm_num, (c6_no_backward_guard (-1) (by norm_num)).1⟩

/-- Claim C7: with no external overrides or with non-negative external
samples, the generated frame's `maxPressure` and `maxVelocity` are
non-negative and every cell of the pressure field is non-negative. -/
theorem c7_nonneg_frame (frames : List InputFrame) (frameIndex : ℤ)
    (hp : ∀ f ∈ frames, 0 ≤ f.pressure) (hv : ∀ f ∈ frames, 0 ≤ f.velocity) :
    0 ≤ (generateFrameData frames frameIndex).maxPressure ∧
    0 ≤ (generateFrameData frames frameIndex).maxVelocity ∧
    ∀ row ∈ (generateFrameData frames frameIndex).pressureField, ∀ p ∈ row, 0 ≤ p := by
  refine ⟨?_, ?_, ?_⟩
  · show 0 ≤ framePeakPressure frames frameIndex
    rw [framePeakPressure]
    refine jsOr_nonneg ?_ (analyticPressure_nonneg _)
    rcases lookupFrame_mem_or_default frames frameIndex with h | h
    · exact mul_nonneg (hp _ h) (by norm_num)
    · rw [h]
      show (0 : ℝ) ≤ 0 * 15
      norm_num
  · show 0 ≤ framePeakVelocity frames frameIndex
    rw [framePeakVelocity]
    refine jsOr_nonneg ?_ (analyticVelocity_nonneg _)
    rcases lookupFrame_mem_or_default frames frameIndex with h | h
    · exact mul_nonneg (hv _ h) (by norm_num)
    · rw [h]
      show (0 : ℝ) ≤ 0 * 350
      norm_num
  · intro row hrow p hp2
    have hrow2 : row ∈ pressureField (framePeakPressure frames frameIndex)
        (frameTime frames frameIndex) := hrow
    rw [pressureField, List.mem_map] at hrow2
    obtain ⟨a, -, rfl⟩ := hrow2
    rw [pressureFieldRow, List.mem_map] at hp2
    obtain ⟨b, -, rfl⟩ := hp2
    exact pressureCell_nonneg _ _ a b

/-- Witness for C7 with the empty frame list at frame index 0. -/
theorem c7_nonneg_frame_witness :
    0 ≤ (generateFrameData [] 0).maxPressure ∧
    0 ≤ (generateFrameData [] 0).maxVelocity := by
  have h := c7_nonneg_frame [] 0 (fun f hf => absurd hf (List.not_mem_nil f))
    (fun f hf => absurd hf (List.not_mem_nil f))
  exact ⟨h.1, h.2.1⟩

/-- Claim C10 (implicit): the exact grid-center cell `(25, 25)` of the
pressure field is 0 for every time and every peak pressure: its distance
from the center is 0, so the normalized time-at-distance is 0, the
`tStarLocal > 0` guard fails, and the epicenter never holds nonzero
pressure, even while the wave is active. -/
theorem c10_epicenter_always_zero (maxP t : ℝ) : pressureCell maxP t 25 25 = 0 := by
  have hd : gridDistance 25 25 25 = 0 := by
    unfold gridDistance
    norm_num
  have hts : tStarLocal t 0 = 0 := by
    unfold tStarLocal
    rw [zero_div, zero_mul, zero_div]
  unfold pressureCell
  rw [hd, hts, if_neg (lt_irrefl 0), ite_self, max_self]

/-- Witness for C10 at peak pressure 15 and time 1. -/
theorem c10_epicenter_always_zero_witness : pressureCell 15 1 25 25 = 0 :=
  c10_epicenter_always_zero 15 1

/-- Witness for C3 (amended) at mass 2000 kg. -/
theorem c3_scaling_law_witness :
    tntEquivalentOf "TNT" 2000 = 2000 ∧
    tntEquivalentOf "C4" 2000 = 2000 * 1.34 ∧
    tntEquivalentOf "PETN" 2000 = 2000 * 1.34 ∧
    tntEquivalentOf "RDX" 2000 = 2000 * 1.34 ∧
    tntEquivalentOf "ANFO" 2000 = 2000 * 1.34 ∧
    (tntEquivalentOf "TNT" 1000 / 1000 : ℝ) ^ ((1 : ℝ) / 3) = 1 ∧
    calculateBlastRadius 1000 "TNT" = 100 :=
  c3_scaling_law 2000
